import Mathlib

/-!
Shallow embedding of `src/github_pr_report_generator.py` and verification of
its specified properties.

Modelling conventions:
* Timestamps parsed by `datetime.strptime` become `DateTime` structures
  (year/month/day/hour/minute/second as naturals); Python's comparison of
  normalized naive datetimes is lexicographic on those fields (`dtLt`), and
  `timedelta.days` of a datetime difference is the floor of the difference in
  seconds divided by 86400 (`Int.fdiv`), with the epoch-second count computed
  from the proleptic Gregorian calendar (`daysFromCivil`, matching
  `datetime.toordinal`).
* HTTP calls are replaced by oracles: a `FetchResult` is either the decoded
  successful body (paired with the `X-RateLimit-Remaining` header value that
  the code reads afterwards, defaulting to 1) or `err`, covering both
  `requests` exceptions and `raise_for_status` failures, since the code
  handles those two identically via `except RequestException`.
* Side effects relevant to the claims (quota queries, issued API requests,
  sleeps, cache-file writes) are recorded as explicit `Event` traces.
* Python `None` becomes `Option.none`; `dict.get(k, 0)` becomes `Option.getD`.
-/

/-- A calendar date, as parsed by `strptime(s, "%Y-%m-%d")` (time fields 0). -/
structure Date where
  year : Nat
  month : Nat
  day : Nat
deriving DecidableEq, Repr

/-- A timestamp, as parsed by `strptime(s, "%Y-%m-%dT%H:%M:%SZ")`. -/
structure DateTime where
  year : Nat
  month : Nat
  day : Nat
  hour : Nat
  minute : Nat
  second : Nat
deriving DecidableEq, Repr

/-- Python's `<` on naive datetimes: lexicographic on the six fields (the
first differing field decides). -/
def dtLt (a b : DateTime) : Bool :=
  decide (a.year < b.year ∨ (a.year = b.year ∧
    (a.month < b.month ∨ (a.month = b.month ∧
      (a.day < b.day ∨ (a.day = b.day ∧
        (a.hour < b.hour ∨ (a.hour = b.hour ∧
          (a.minute < b.minute ∨ (a.minute = b.minute ∧
            a.second < b.second))))))))))

/-- Strict lexicographic order on calendar dates. -/
def dateLt (a b : Date) : Bool :=
  decide (a.year < b.year ∨ (a.year = b.year ∧
    (a.month < b.month ∨ (a.month = b.month ∧ a.day < b.day))))

/-- The datetime `strptime` produces for a `"%Y-%m-%d"` string: that calendar
date at 00:00:00. -/
def midnight (d : Date) : DateTime :=
  ⟨d.year, d.month, d.day, 0, 0, 0⟩

/-- The calendar-date part of a timestamp. -/
def dateOf (t : DateTime) : Date :=
  ⟨t.year, t.month, t.day⟩

/-- Days since 1970-01-01 of a proleptic Gregorian date (the civil-from-days
algorithm; agrees with Python's `date.toordinal` up to the epoch offset). -/
def daysFromCivil (y m d : Int) : Int :=
  let y1 := if m ≤ 2 then y - 1 else y
  let era := Int.fdiv y1 400
  let yoe := y1 - era * 400
  let mp := Int.emod (m + 9) 12
  let doy := Int.fdiv (153 * mp + 2) 5 + d - 1
  let doe := yoe * 365 + Int.fdiv yoe 4 - Int.fdiv yoe 100 + doy
  era * 146097 + doe - 719468

/-- Seconds since the epoch of a naive timestamp; differences of these are
what Python's `datetime` subtraction measures. -/
def toSeconds (t : DateTime) : Int :=
  daysFromCivil t.year t.month t.day * 86400
    + t.hour * 3600 + t.minute * 60 + t.second

/-- Outcome of one HTTP fetch: the decoded body on success, or `err` for any
`RequestException` (network failure or non-2xx via `raise_for_status`). -/
inductive FetchResult (α : Type) where
  | ok (val : α)
  | err
deriving DecidableEq, Repr

/-- The fields of one element of the PR-listing response that the script
reads (`pr['user']['id']`, `number`, `title`, `html_url`, timestamps). -/
structure RawPr where
  userId : Int
  number : Nat
  title : String
  htmlUrl : String
  createdAt : DateTime
  closedAt : Option DateTime
  mergedAt : Option DateTime
deriving DecidableEq, Repr

/-- Result of `calculate_merge_time`: a day count or the `'N/A'` sentinel. -/
inductive MergeDays where
  | days (d : Int)
  | NA
deriving DecidableEq, Repr

/-- Result of `get_pr_details`: a line count or the `'N/A'` sentinel. -/
inductive LinesChanged where
  | count (n : Nat)
  | NA
deriving DecidableEq, Repr

/-- The `merge_status` values computed in `extract_data_from_prs`. -/
inductive PrStatus where
  | Merged
  | Cancelled
  | Open
deriving DecidableEq, Repr

/-- The fields of the PR-detail response body that `get_pr_details` reads;
`none` models a JSON object lacking that key. -/
structure PrDetailBody where
  additions : Option Nat
  deletions : Option Nat
deriving DecidableEq, Repr

/-- The kinds of remote API request the pipeline issues. -/
inductive ApiKind where
  | userLookup
  | listPage (page : Nat)
  | detail
  | probe
deriving DecidableEq, Repr

/-- Observable effects of the pipeline: `quotaCheck` is the `GET /rate_limit`
query inside `ensure_rate_limit`; `request` is one of the four data requests;
`pageSleep` is the fixed `time.sleep(2)` between listing pages;
`throttleSleep` is the low-water-mark sleep triggered by the
`X-RateLimit-Remaining` response header; `saveFile` is a full rewrite of the
cache file by `save_cache`. -/
inductive Event where
  | quotaCheck
  | request (kind : ApiKind)
  | pageSleep
  | throttleSleep
  | saveFile
deriving DecidableEq, Repr

/-- `ensure_rate_limit`, as a function of the quota state it reads: returns
the duration slept (`reset_time - now` plus a one-second margin) when the
remaining quota is zero, and `none` (no wait) otherwise. -/
def ensure_rate_limit (remaining : Nat) (resetTime now : Int) : Option Int :=
  if remaining = 0 then some (resetTime - now + 1) else none

/-- The post-response header check shared by the fetching functions: sleep
when `X-RateLimit-Remaining` (default 1) has dropped below 5. -/
def headerThrottle (remaining : Nat) : List Event :=
  if remaining < 5 then [Event.throttleSleep] else []

/-- `calculate_merge_time`: when both timestamps are present, the whole-day
difference `(closed_time - created_time).days` (floor division of the second
difference, matching Python's `timedelta` normalization); else `'N/A'`. -/
def calculate_merge_time (createdAt closedAt : Option DateTime) : MergeDays :=
  match createdAt, closedAt with
  | some c, some cl => MergeDays.days (Int.fdiv (toSeconds cl - toSeconds c) 86400)
  | _, _ => MergeDays.NA

/-- `get_pr_details`, value part: on success, `additions + deletions` with
each missing field defaulted to 0; on any `RequestException`, `'N/A'`. -/
def get_pr_details (resp : FetchResult (PrDetailBody × Nat)) : LinesChanged :=
  match resp with
  | FetchResult.ok (body, _) => LinesChanged.count (body.additions.getD 0 + body.deletions.getD 0)
  | FetchResult.err => LinesChanged.NA

/-- `get_pr_details`, trace part: the request is issued with no preceding
quota query; only on success is the response header inspected (throttle). -/
def get_pr_details_trace (resp : FetchResult (PrDetailBody × Nat)) : List Event :=
  match resp with
  | FetchResult.ok (_, remaining) => Event.request ApiKind.detail :: headerThrottle remaining
  | FetchResult.err => [Event.request ApiKind.detail]

/-- The loop body of `get_prs_for_repository`, with an oracle `pages` giving
each page's fetch outcome (items plus the remaining-quota header) and a fuel
bound standing in for the unbounded `while True`.  Per iteration:
`ensure_rate_limit`, the page request, then on success the header check; an
empty page breaks the loop, a failure breaks the loop keeping the
accumulator, and otherwise the items are appended, the page number advances
and the fixed 2-second throttle runs. -/
def get_prs_aux (pages : Nat → FetchResult (List RawPr × Nat)) :
    Nat → Nat → List RawPr → List RawPr × List Event
  | 0, _, acc => (acc, [])
  | fuel + 1, page, acc =>
    match pages page with
    | FetchResult.err => (acc, [Event.quotaCheck, Event.request (ApiKind.listPage page)])
    | FetchResult.ok (prs, remaining) =>
      if prs.isEmpty then
        (acc, Event.quotaCheck :: Event.request (ApiKind.listPage page) ::
          headerThrottle remaining)
      else
        ((get_prs_aux pages fuel (page + 1) (acc ++ prs)).1,
         Event.quotaCheck :: Event.request (ApiKind.listPage page) ::
           (headerThrottle remaining ++ Event.pageSleep ::
             (get_prs_aux pages fuel (page + 1) (acc ++ prs)).2))

/-- `get_prs_for_repository`: paginate from page 1 with an empty accumulator,
returning the accumulated PR list and the event trace. -/
def get_prs_for_repository (pages : Nat → FetchResult (List RawPr × Nat))
    (fuel : Nat) : List RawPr × List Event :=
  get_prs_aux pages fuel 1 []

/-- The date-window test of `extract_data_from_prs`: skip when
`(start_date and created_at < start_date) or (end_date and created_at > end_date)`,
where the bounds were parsed date-only (hence compare as midnights). -/
def dateFilterSkip (startDate endDate : Option Date) (createdAt : DateTime) : Bool :=
  (match startDate with
   | some s => dtLt createdAt (midnight s)
   | none => false) ||
  (match endDate with
   | some e => dtLt (midnight e) createdAt
   | none => false)

/-- The full per-PR filter of `extract_data_from_prs`: author id equals the
target user id, and the creation timestamp is not skipped by the window. -/
def keepPr (userId : Int) (startDate endDate : Option Date) (pr : RawPr) : Bool :=
  pr.userId == userId && !(dateFilterSkip startDate endDate pr.createdAt)

/-- One output row of `extract_data_from_prs` (the spec's `PrRecord`). -/
structure PrRecord where
  repository : String
  title : String
  number : Nat
  url : String
  createdAt : DateTime
  closedAt : Option DateTime
  mergeDays : MergeDays
  linesChanged : LinesChanged
  status : PrStatus
deriving DecidableEq, Repr

/-- The row built for one surviving PR: `merge_status` from the truthiness
chain `'Merged' if merged_at else ('Cancelled' if closed_at_raw else 'Open')`,
`time_to_merge` from `calculate_merge_time`, `total_changes` from
`get_pr_details` via the per-PR detail oracle. -/
def mkRecord (repoName : String) (details : Nat → FetchResult (PrDetailBody × Nat))
    (pr : RawPr) : PrRecord :=
  { repository := repoName
    title := pr.title
    number := pr.number
    url := pr.htmlUrl
    createdAt := pr.createdAt
    closedAt := pr.closedAt
    mergeDays := calculate_merge_time (some pr.createdAt) pr.closedAt
    linesChanged := get_pr_details (details pr.number)
    status :=
      if pr.mergedAt.isSome then PrStatus.Merged
      else if pr.closedAt.isSome then PrStatus.Cancelled
      else PrStatus.Open }

/-- `extract_data_from_prs`: keep the PRs passing `keepPr` in input order,
map each to its record, and record the detail-fetch events issued along the
way. -/
def extract_data_from_prs (prs : List RawPr) (repoName : String) (userId : Int)
    (startDate endDate : Option Date)
    (details : Nat → FetchResult (PrDetailBody × Nat)) :
    List PrRecord × List Event :=
  ((prs.filter (keepPr userId startDate endDate)).map (mkRecord repoName details),
   (prs.filter (keepPr userId startDate endDate)).flatMap
     (fun pr => get_pr_details_trace (details pr.number)))

/-- `get_pr_count`, value part: `data.get('total_count', 0)` on success, 0 on
any `RequestException`. -/
def get_pr_count (resp : FetchResult (Option Nat × Nat)) : Nat :=
  match resp with
  | FetchResult.ok (totalCount, _) => totalCount.getD 0
  | FetchResult.err => 0

/-- `get_pr_count`, trace part: `ensure_rate_limit` precedes the search
request; the header check runs only on success. -/
def get_pr_count_trace (resp : FetchResult (Option Nat × Nat)) : List Event :=
  match resp with
  | FetchResult.ok (_, remaining) =>
    Event.quotaCheck :: Event.request ApiKind.probe :: headerThrottle remaining
  | FetchResult.err => [Event.quotaCheck, Event.request ApiKind.probe]

/-- `get_user_id`, trace part: `ensure_rate_limit` then the user request. -/
def get_user_id_trace : List Event :=
  [Event.quotaCheck, Event.request ApiKind.userLookup]

/-- The JSON object persisted in `pr_cache.json`: repository name to count. -/
abbrev CacheMap := List (String × Nat)

/-- Python's `repo_name in pr_cache`. -/
def cacheContains (c : CacheMap) (k : String) : Bool :=
  c.any fun p => p.1 == k

/-- Lookup of a cached count (`pr_cache[repo_name]`). -/
def cacheGet (c : CacheMap) (k : String) : Option Nat :=
  (c.find? fun p => p.1 == k).map Prod.snd

/-- Python's `pr_cache[repo_name] = pr_count`: replace when present, else
append. -/
def cacheSet (c : CacheMap) (k : String) (v : Nat) : CacheMap :=
  if cacheContains c k then c.map (fun p => if p.1 == k then (k, v) else p)
  else c ++ [(k, v)]

/-- The in-memory mapping together with the last snapshot written to
`pr_cache.json`; `save_cache` rewrites the whole file, i.e. sets `file` to
the current `mem`. -/
structure CacheState where
  mem : CacheMap
  file : CacheMap
deriving DecidableEq, Repr

/-- Result of the cache-and-probe prefix of one iteration of the
per-repository loop in `main`. -/
structure RepoStepOut where
  state : CacheState
  prCount : Nat
  events : List Event
deriving DecidableEq, Repr

/-- Lines 378-383 of `main`, one repository: when the name is already in
`pr_cache`, call `get_pr_count` anyway and leave the cache alone; when it is
absent, call `get_pr_count`, store the result and rewrite the file. -/
def repo_cache_step (probeResp : String → FetchResult (Option Nat × Nat))
    (st : CacheState) (repo : String) : RepoStepOut :=
  if cacheContains st.mem repo then
    { state := st
      prCount := get_pr_count (probeResp repo)
      events := get_pr_count_trace (probeResp repo) }
  else
    let c := get_pr_count (probeResp repo)
    let mem := cacheSet st.mem repo c
    { state := { mem := mem, file := mem }
      prCount := c
      events := get_pr_count_trace (probeResp repo) ++ [Event.saveFile] }

/-- The cache evolution over the whole `for repo_name in repos` loop. -/
def main_repo_loop (probeResp : String → FetchResult (Option Nat × Nat)) :
    CacheState → List String → CacheState
  | st, [] => st
  | st, r :: rs => main_repo_loop probeResp (repo_cache_step probeResp st r).state rs

/-- One full iteration of the per-repository loop in `main`: probe (with the
cache step), skip when the count is zero, otherwise paginate and extract,
concatenating the event traces in execution order. -/
def process_repo (probeResp : String → FetchResult (Option Nat × Nat))
    (pages : Nat → FetchResult (List RawPr × Nat))
    (details : Nat → FetchResult (PrDetailBody × Nat))
    (userId : Int) (startDate endDate : Option Date) (fuel : Nat)
    (st : CacheState) (repo : String) :
    CacheState × List PrRecord × List Event :=
  let step := repo_cache_step probeResp st repo
  if step.prCount = 0 then (step.state, [], step.events)
  else
    let pagerOut := get_prs_for_repository pages fuel
    let ex := extract_data_from_prs pagerOut.1 repo userId startDate endDate details
    (step.state, ex.1, step.events ++ pagerOut.2 ++ ex.2)

/-- `true` when an event is one of the four data requests. -/
def isRequest : Event → Bool
  | Event.request _ => true
  | _ => false

/-- Scan of a trace checking that every data request is preceded by a quota
check with no other data request in between (the request's own fresh check);
the accumulator says whether an unconsumed quota check is pending. -/
def freshOk : Bool → List Event → Bool
  | _, [] => true
  | _, Event.quotaCheck :: rest => freshOk true rest
  | c, e :: rest =>
    if isRequest e then c && freshOk false rest else freshOk c rest

/-- The claim's temporal property on a trace: no API request is ever issued
without a preceding (fresh) quota check. -/
def freshlyChecked (tr : List Event) : Bool :=
  freshOk false tr

/-- The page numbers of the listing requests occurring in a trace, in order. -/
def requestedPages : List Event → List Nat
  | [] => []
  | Event.request (ApiKind.listPage n) :: rest => n :: requestedPages rest
  | _ :: rest => requestedPages rest

/-! ## Helper lemmas -/

/-- Membership in the output of `extract_data_from_prs`: exactly the records
built from input PRs that pass the author-and-window filter. -/
theorem mem_extract_iff (prs : List RawPr) (repoName : String) (userId : Int)
    (startDate endDate : Option Date)
    (details : Nat → FetchResult (PrDetailBody × Nat)) (r : PrRecord) :
    r ∈ (extract_data_from_prs prs repoName userId startDate endDate details).1 ↔
      ∃ pr, pr ∈ prs ∧ keepPr userId startDate endDate pr = true ∧
        mkRecord repoName details pr = r := by
  simp only [extract_data_from_prs, List.mem_map, List.mem_filter]
  constructor
  · rintro ⟨pr, ⟨hmem, hkeep⟩, heq⟩
    exact ⟨pr, hmem, hkeep, heq⟩
  · rintro ⟨pr, hmem, hkeep, heq⟩
    exact ⟨pr, ⟨hmem, hkeep⟩, heq⟩

/-- The `merge_status` of a built record, characterized by the presence of
the source PR's `merged_at` / `closed_at` fields. -/
theorem mkRecord_status (repoName : String)
    (details : Nat → FetchResult (PrDetailBody × Nat)) (pr : RawPr) :
    ((mkRecord repoName details pr).status = PrStatus.Merged ↔
        pr.mergedAt.isSome = true) ∧
    ((mkRecord repoName details pr).status = PrStatus.Cancelled ↔
        pr.mergedAt = none ∧ pr.closedAt.isSome = true) ∧
    ((mkRecord repoName details pr).status = PrStatus.Open ↔
        pr.mergedAt = none ∧ pr.closedAt = none) := by
  simp only [mkRecord]
  cases pr.mergedAt <;> cases pr.closedAt <;> simp

/-- Unfolding of the lexicographic datetime comparison. -/
theorem dtLt_iff (a b : DateTime) :
    dtLt a b = true ↔
      a.year < b.year ∨ (a.year = b.year ∧
        (a.month < b.month ∨ (a.month = b.month ∧
          (a.day < b.day ∨ (a.day = b.day ∧
            (a.hour < b.hour ∨ (a.hour = b.hour ∧
              (a.minute < b.minute ∨ (a.minute = b.minute ∧
                a.second < b.second))))))))) := by
  simp [dtLt]

/-- Unfolding of the lexicographic date comparison. -/
theorem dateLt_iff (a b : Date) :
    dateLt a b = true ↔
      a.year < b.year ∨ (a.year = b.year ∧
        (a.month < b.month ∨ (a.month = b.month ∧ a.day < b.day))) := by
  simp [dateLt]

/-- The datetime comparison is irreflexive. -/
theorem dtLt_self (t : DateTime) : dtLt t t = false := by
  simp [dtLt]

/-- The author-and-window filter with both bounds, characterized by the two
midnight comparisons. -/
theorem keepPr_iff (userId : Int) (s e : Date) (pr : RawPr) :
    keepPr userId (some s) (some e) pr = true ↔
      pr.userId = userId ∧ dtLt pr.createdAt (midnight s) = false ∧
        dtLt (midnight e) pr.createdAt = false := by
  simp [keepPr, dateFilterSkip]

/-! ## Claims -/

/-- Claim C1, counterexample: an author-matched PR created at
`2024-11-30T00:00:01Z` — i.e. on `end_date`'s calendar date `2024-11-30`,
one second past midnight — is excluded by `extract_data_from_prs`, refuting
date-only inclusivity of the end bound. -/
theorem c1_counterexample :
    dateOf ⟨2024, 11, 30, 0, 0, 1⟩ = (⟨2024, 11, 30⟩ : Date) ∧
    (⟨1, 7, "t", "u", ⟨2024, 11, 30, 0, 0, 1⟩, none, none⟩ : RawPr).userId = 1 ∧
    (extract_data_from_prs
      [⟨1, 7, "t", "u", ⟨2024, 11, 30, 0, 0, 1⟩, none, none⟩] "repoA" 1
      (some ⟨2024, 6, 26⟩) (some ⟨2024, 11, 30⟩) (fun _ => FetchResult.err)).1
      = [] :=
  ⟨rfl, rfl, by decide⟩

/-- Claim C1, amended (proved): the filter compares the full creation
timestamp against the midnights of the parsed bounds.  Consequently the
start bound is date-only inclusive (any time of day on `start_date` passes,
and any earlier calendar date is excluded), any calendar date after
`end_date` is excluded, but on `end_date` itself only a creation at exactly
00:00:00 is included — later times of day on `end_date` are excluded.  A
missing bound is unbounded on that side, and emission from
`extract_data_from_prs` is governed exactly by this filter plus the author
test. -/
theorem c1_amended :
    (∀ (userId : Int) (s e : Date) (pr : RawPr),
      keepPr userId (some s) (some e) pr = true ↔
        pr.userId = userId ∧ dtLt pr.createdAt (midnight s) = false ∧
          dtLt (midnight e) pr.createdAt = false) ∧
    (∀ (s : Date) (t : DateTime), dateOf t = s → dtLt t (midnight s) = false) ∧
    (∀ (s : Date) (t : DateTime), dateLt (dateOf t) s = true →
      dtLt t (midnight s) = true) ∧
    (∀ (e : Date) (t : DateTime), dateLt e (dateOf t) = true →
      dtLt (midnight e) t = true) ∧
    (∀ (e : Date) (t : DateTime), dateOf t = e →
      (dtLt (midnight e) t = false ↔ t = midnight e)) ∧
    (∀ (userId : Int) (pr : RawPr),
      keepPr userId none none pr = (pr.userId == userId)) ∧
    (∀ (prs : List RawPr) (repoName : String) (userId : Int)
        (startDate endDate : Option Date)
        (details : Nat → FetchResult (PrDetailBody × Nat)) (r : PrRecord),
      r ∈ (extract_data_from_prs prs repoName userId startDate endDate details).1 ↔
        ∃ pr, pr ∈ prs ∧ keepPr userId startDate endDate pr = true ∧
          mkRecord repoName details pr = r) := by
  refine ⟨keepPr_iff, ?_, ?_, ?_, ?_, ?_, mem_extract_iff⟩
  · intro s t hdate
    obtain ⟨ty, tmo, td, th, tmi, ts⟩ := t
    obtain ⟨sy, smo, sd⟩ := s
    simp only [dateOf, Date.mk.injEq] at hdate
    obtain ⟨rfl, rfl, rfl⟩ := hdate
    cases hb : dtLt ⟨ty, tmo, td, th, tmi, ts⟩ (midnight ⟨ty, tmo, td⟩)
    · rfl
    · exfalso
      have h := (dtLt_iff _ _).1 hb
      simp [midnight] at h
  · intro s t hlt
    rw [dtLt_iff]
    have h := (dateLt_iff _ _).1 hlt
    simp only [dateOf] at h
    simp only [midnight]
    omega
  · intro e t hlt
    rw [dtLt_iff]
    have h := (dateLt_iff _ _).1 hlt
    simp only [dateOf] at h
    simp only [midnight]
    omega
  · intro e t hdate
    obtain ⟨ty, tmo, td, th, tmi, ts⟩ := t
    obtain ⟨ey, emo, ed⟩ := e
    simp only [dateOf, Date.mk.injEq] at hdate
    obtain ⟨rfl, rfl, rfl⟩ := hdate
    constructor
    · intro h
      have hnlt : ¬ (dtLt (midnight ⟨ty, tmo, td⟩) ⟨ty, tmo, td, th, tmi, ts⟩ = true) := by
        simp [h]
      rw [dtLt_iff] at hnlt
      simp [midnight, DateTime.mk.injEq] at hnlt ⊢
      omega
    · intro h
      rw [h]
      exact dtLt_self _
  · intro userId pr
    simp [keepPr, dateFilterSkip]

/-- Witness for C1's amended theorem at the spec's two boundary examples:
`2024-06-26T23:59:59Z` passes the start bound `2024-06-26`, and
`2024-12-01T00:00:01Z` is excluded by the end bound `2024-11-30`. -/
theorem c1_amended_witness :
    dtLt (⟨2024, 6, 26, 23, 59, 59⟩ : DateTime) (midnight ⟨2024, 6, 26⟩) = false ∧
    dtLt (midnight ⟨2024, 11, 30⟩) (⟨2024, 12, 1, 0, 0, 1⟩ : DateTime) = true :=
  ⟨c1_amended.2.1 ⟨2024, 6, 26⟩ ⟨2024, 6, 26, 23, 59, 59⟩ rfl,
   c1_amended.2.2.2.1 ⟨2024, 11, 30⟩ ⟨2024, 12, 1, 0, 0, 1⟩ (by decide)⟩

/-- Claim C2 (code bug): with `"repoA"` already cached (count 5), the
cache-hit branch of the main loop still issues the probe request and uses
its fresh result (7), ignoring the cached count — the cache avoids nothing.
The claim (and the spec) say a cached repository is not probed again. -/
theorem c2_cached_repo_still_probed :
    cacheContains [("repoA", 5)] "repoA" = true ∧
    (repo_cache_step (fun _ => FetchResult.ok (some 7, 9))
        ⟨[("repoA", 5)], [("repoA", 5)]⟩ "repoA").events =
      [Event.quotaCheck, Event.request ApiKind.probe] ∧
    Event.request ApiKind.probe ∈
      (repo_cache_step (fun _ => FetchResult.ok (some 7, 9))
        ⟨[("repoA", 5)], [("repoA", 5)]⟩ "repoA").events ∧
    (repo_cache_step (fun _ => FetchResult.ok (some 7, 9))
        ⟨[("repoA", 5)], [("repoA", 5)]⟩ "repoA").prCount = 7 := by
  refine ⟨rfl, rfl, ?_, rfl⟩
  decide

/-- Claim C4, counterexample: `"repoA"` is cached at 5; the loop iteration
for it performs a fresh probe returning 7, yet the in-memory entry (and the
file) still read 5 afterwards — not every fresh probe updates the cache. -/
theorem c4_counterexample :
    (repo_cache_step (fun _ => FetchResult.ok (some 7, 9))
        ⟨[("repoA", 5)], [("repoA", 5)]⟩ "repoA").prCount = 7 ∧
    cacheGet (repo_cache_step (fun _ => FetchResult.ok (some 7, 9))
        ⟨[("repoA", 5)], [("repoA", 5)]⟩ "repoA").state.mem "repoA" = some 5 ∧
    cacheGet (repo_cache_step (fun _ => FetchResult.ok (some 7, 9))
        ⟨[("repoA", 5)], [("repoA", 5)]⟩ "repoA").state.file "repoA" = some 5 :=
  ⟨rfl, rfl, rfl⟩

/-- One loop iteration preserves "the file is the current in-memory
snapshot". -/
theorem repo_cache_step_file_eq_mem
    (probeResp : String → FetchResult (Option Nat × Nat)) (st : CacheState)
    (repo : String) (h : st.file = st.mem) :
    (repo_cache_step probeResp st repo).state.file =
      (repo_cache_step probeResp st repo).state.mem := by
  by_cases hc : cacheContains st.mem repo = true <;> simp [repo_cache_step, hc, h]

/-- Claim C4, amended (proved): every probe of a repository *not already in
the cache* updates the in-memory entry to the probed count and immediately
rewrites the whole mapping to the file (a `saveFile` in that very
iteration); a probe of an already-cached repository changes neither cache
nor file; and across the whole loop the on-disk file always equals the
complete in-memory snapshot. -/
theorem c4_amended :
    (∀ (probeResp : String → FetchResult (Option Nat × Nat)) (st : CacheState)
        (repo : String),
      cacheContains st.mem repo = false →
        (repo_cache_step probeResp st repo).state.mem =
          cacheSet st.mem repo (get_pr_count (probeResp repo)) ∧
        (repo_cache_step probeResp st repo).state.file =
          (repo_cache_step probeResp st repo).state.mem ∧
        Event.saveFile ∈ (repo_cache_step probeResp st repo).events) ∧
    (∀ (probeResp : String → FetchResult (Option Nat × Nat)) (st : CacheState)
        (repo : String),
      cacheContains st.mem repo = true →
        (repo_cache_step probeResp st repo).state = st ∧
        Event.saveFile ∉ (repo_cache_step probeResp st repo).events) ∧
    (∀ (probeResp : String → FetchResult (Option Nat × Nat)) (st : CacheState)
        (repos : List String),
      st.file = st.mem →
        (main_repo_loop probeResp st repos).file =
          (main_repo_loop probeResp st repos).mem) := by
  refine ⟨?_, ?_, ?_⟩
  · intro probeResp st repo hc
    refine ⟨by simp [repo_cache_step, hc], by simp [repo_cache_step, hc], ?_⟩
    simp [repo_cache_step, hc]
  · intro probeResp st repo hc
    refine ⟨by simp [repo_cache_step, hc], ?_⟩
    cases hr : probeResp repo with
    | ok v =>
      obtain ⟨tc, remaining⟩ := v
      by_cases h5 : remaining < 5 <;>
        simp [repo_cache_step, hc, get_pr_count_trace, hr, headerThrottle, h5]
    | err => simp [repo_cache_step, hc, get_pr_count_trace, hr]
  · intro probeResp st repos
    induction repos generalizing st with
    | nil => intro h; exact h
    | cons r rs ih =>
      intro h
      exact ih _ (repo_cache_step_file_eq_mem probeResp st r h)

/-- Witness for C4's amended theorem: a fresh probe of `"repoA"` on an empty
cache stores 7 and saves; the loop over two repositories keeps file = mem. -/
theorem c4_amended_witness :
    ((repo_cache_step (fun _ => FetchResult.ok (some 7, 9)) ⟨[], []⟩ "repoA").state.mem =
        cacheSet [] "repoA"
          (get_pr_count ((fun _ : String => FetchResult.ok (some 7, 9)) "repoA")) ∧
      (repo_cache_step (fun _ => FetchResult.ok (some 7, 9)) ⟨[], []⟩ "repoA").state.file =
        (repo_cache_step (fun _ => FetchResult.ok (some 7, 9)) ⟨[], []⟩ "repoA").state.mem ∧
      Event.saveFile ∈
        (repo_cache_step (fun _ => FetchResult.ok (some 7, 9)) ⟨[], []⟩ "repoA").events) ∧
    (main_repo_loop (fun _ => FetchResult.ok (some 7, 9)) ⟨[], []⟩
        ["repoA", "repoB"]).file =
      (main_repo_loop (fun _ => FetchResult.ok (some 7, 9)) ⟨[], []⟩
        ["repoA", "repoB"]).mem :=
  ⟨c4_amended.1 (fun _ => FetchResult.ok (some 7, 9)) ⟨[], []⟩ "repoA" (by decide),
   c4_amended.2.2 (fun _ => FetchResult.ok (some 7, 9)) ⟨[], []⟩ ["repoA", "repoB"] rfl⟩

/-- Every trace the pager produces satisfies the fresh-quota-check
discipline, whatever the page oracle, the fuel and the pending-check flag. -/
theorem freshOk_get_prs_aux (pages : Nat → FetchResult (List RawPr × Nat)) :
    ∀ (fuel page : Nat) (acc : List RawPr) (c : Bool),
      freshOk c (get_prs_aux pages fuel page acc).2 = true := by
  intro fuel
  induction fuel with
  | zero => intro page acc c; rfl
  | succ f ih =>
    intro page acc c
    simp only [get_prs_aux]
    cases hp : pages page with
    | err => rfl
    | ok v =>
      obtain ⟨prs, remaining⟩ := v
      by_cases he : prs.isEmpty = true
      · by_cases h5 : remaining < 5 <;>
          simp [he, headerThrottle, h5, freshOk, isRequest]
      · by_cases h5 : remaining < 5 <;>
          simp [he, headerThrottle, h5, freshOk, isRequest, ih]

/-- Claim C3, counterexample: one full run of a repository — probe, two
listing pages, and the detail fetch of one matching PR — produces a trace
whose final detail request has no quota check of its own (the last check
belongs to the listing request before it), so the trace violates the
"quota queried before every API call" discipline. -/
theorem c3_counterexample :
    Event.request ApiKind.detail ∈
      (process_repo (fun _ => FetchResult.ok (some 1, 9))
        (fun n => if n = 1 then
            FetchResult.ok ([⟨1, 7, "t", "u", ⟨2024, 7, 1, 10, 0, 0⟩, none, none⟩], 9)
          else FetchResult.ok ([], 9))
        (fun _ => FetchResult.ok (⟨some 3, some 4⟩, 9))
        1 none none 10 ⟨[], []⟩ "repoA").2.2 ∧
    freshlyChecked ((process_repo (fun _ => FetchResult.ok (some 1, 9))
        (fun n => if n = 1 then
            FetchResult.ok ([⟨1, 7, "t", "u", ⟨2024, 7, 1, 10, 0, 0⟩, none, none⟩], 9)
          else FetchResult.ok ([], 9))
        (fun _ => FetchResult.ok (⟨some 3, some 4⟩, 9))
        1 none none 10 ⟨[], []⟩ "repoA").2.2) = false := by
  constructor
  · decide
  · decide

/-- Claim C3, amended (proved): the user lookup, every listing-page request
and every probe request are each preceded by their own quota query, and when
the remaining quota is zero the caller sleeps `reset - now + 1`, waking
exactly one time unit after the reset instant; but a PR-detail request is
issued with no preceding quota query at all (`get_pr_details` never calls
`ensure_rate_limit`; it only inspects response headers afterwards). -/
theorem c3_amended :
    freshlyChecked get_user_id_trace = true ∧
    (∀ resp : FetchResult (Option Nat × Nat),
      freshlyChecked (get_pr_count_trace resp) = true) ∧
    (∀ (pages : Nat → FetchResult (List RawPr × Nat)) (fuel : Nat),
      freshlyChecked (get_prs_for_repository pages fuel).2 = true) ∧
    (∀ resp : FetchResult (PrDetailBody × Nat),
      Event.quotaCheck ∉ get_pr_details_trace resp ∧
        Event.request ApiKind.detail ∈ get_pr_details_trace resp) ∧
    (∀ resetTime now : Int,
      ensure_rate_limit 0 resetTime now = some (resetTime - now + 1) ∧
        now + (resetTime - now + 1) = resetTime + 1) ∧
    (∀ (remaining : Nat) (resetTime now : Int), remaining ≠ 0 →
      ensure_rate_limit remaining resetTime now = none) := by
  refine ⟨rfl, ?_, ?_, ?_, ?_, ?_⟩
  · intro resp
    cases resp with
    | ok v =>
      obtain ⟨tc, remaining⟩ := v
      by_cases h5 : remaining < 5 <;>
        simp [get_pr_count_trace, headerThrottle, h5, freshlyChecked, freshOk, isRequest]
    | err => rfl
  · intro pages fuel
    exact freshOk_get_prs_aux pages fuel 1 [] false
  · intro resp
    cases resp with
    | ok v =>
      obtain ⟨body, remaining⟩ := v
      by_cases h5 : remaining < 5 <;>
        simp [get_pr_details_trace, headerThrottle, h5]
    | err => exact ⟨by simp [get_pr_details_trace], by simp [get_pr_details_trace]⟩
  · intro resetTime now
    exact ⟨rfl, by ring⟩
  · intro remaining resetTime now h
    simp [ensure_rate_limit, h]

/-- Witness for C3's amended theorem: a concrete pager trace is freshly
checked, and a zero quota with reset 100 at time 90 sleeps 11 seconds,
waking at 101. -/
theorem c3_amended_witness :
    freshlyChecked (get_prs_for_repository
      (fun _ => FetchResult.ok (([] : List RawPr), 9)) 10).2 = true ∧
    (ensure_rate_limit 0 100 90 = some 11 ∧ (90 : Int) + (100 - 90 + 1) = 100 + 1) ∧
    ensure_rate_limit 3 100 90 = none :=
  ⟨c3_amended.2.2.1 (fun _ => FetchResult.ok (([] : List RawPr), 9)) 10,
   c3_amended.2.2.2.2.1 100 90,
   c3_amended.2.2.2.2.2 3 100 90 (by decide)⟩

/-- Claim C5 (confirmed): every emitted PrRecord derives `status` as: Merged
when `merged_at` is present (regardless of `closed_at`); Cancelled when
`merged_at` is absent and `closed_at` is present; Open when both are
absent. -/
theorem c5_status_derivation (prs : List RawPr) (repoName : String)
    (userId : Int) (startDate endDate : Option Date)
    (details : Nat → FetchResult (PrDetailBody × Nat)) (r : PrRecord)
    (hr : r ∈ (extract_data_from_prs prs repoName userId startDate endDate details).1) :
    ∃ pr, pr ∈ prs ∧ r = mkRecord repoName details pr ∧
      (r.status = PrStatus.Merged ↔ pr.mergedAt.isSome = true) ∧
      (r.status = PrStatus.Cancelled ↔ pr.mergedAt = none ∧ pr.closedAt.isSome = true) ∧
      (r.status = PrStatus.Open ↔ pr.mergedAt = none ∧ pr.closedAt = none) := by
  obtain ⟨pr, hmem, _, heq⟩ :=
    (mem_extract_iff prs repoName userId startDate endDate details r).1 hr
  subst heq
  exact ⟨pr, hmem, rfl, mkRecord_status repoName details pr⟩

/-- Witness for C5 at a concrete merged PR. -/
theorem c5_status_derivation_witness :
    ∃ pr, pr ∈ [(⟨1, 7, "t", "u", ⟨2024, 7, 1, 10, 0, 0⟩, some ⟨2024, 7, 4, 9, 0, 0⟩,
                  some ⟨2024, 7, 4, 9, 0, 0⟩⟩ : RawPr)] ∧
      mkRecord "repoA" (fun _ => FetchResult.err)
          ⟨1, 7, "t", "u", ⟨2024, 7, 1, 10, 0, 0⟩, some ⟨2024, 7, 4, 9, 0, 0⟩,
           some ⟨2024, 7, 4, 9, 0, 0⟩⟩ =
        mkRecord "repoA" (fun _ => FetchResult.err) pr ∧
      ((mkRecord "repoA" (fun _ => FetchResult.err)
          ⟨1, 7, "t", "u", ⟨2024, 7, 1, 10, 0, 0⟩, some ⟨2024, 7, 4, 9, 0, 0⟩,
           some ⟨2024, 7, 4, 9, 0, 0⟩⟩).status = PrStatus.Merged ↔
        pr.mergedAt.isSome = true) ∧
      ((mkRecord "repoA" (fun _ => FetchResult.err)
          ⟨1, 7, "t", "u", ⟨2024, 7, 1, 10, 0, 0⟩, some ⟨2024, 7, 4, 9, 0, 0⟩,
           some ⟨2024, 7, 4, 9, 0, 0⟩⟩).status = PrStatus.Cancelled ↔
        pr.mergedAt = none ∧ pr.closedAt.isSome = true) ∧
      ((mkRecord "repoA" (fun _ => FetchResult.err)
          ⟨1, 7, "t", "u", ⟨2024, 7, 1, 10, 0, 0⟩, some ⟨2024, 7, 4, 9, 0, 0⟩,
           some ⟨2024, 7, 4, 9, 0, 0⟩⟩).status = PrStatus.Open ↔
        pr.mergedAt = none ∧ pr.closedAt = none) :=
  c5_status_derivation
    [⟨1, 7, "t", "u", ⟨2024, 7, 1, 10, 0, 0⟩, some ⟨2024, 7, 4, 9, 0, 0⟩,
      some ⟨2024, 7, 4, 9, 0, 0⟩⟩]
    "repoA" 1 none none (fun _ => FetchResult.err) _ (by decide)

/-- Claim C8 (confirmed): when a PR's detail fetch fails, its record is still
emitted, with `lines_changed = 'N/A'` and every other field populated from
the PR as usual — the record is never dropped. -/
theorem c8_detail_failure_record_kept (prs : List RawPr) (repoName : String)
    (userId : Int) (startDate endDate : Option Date)
    (details : Nat → FetchResult (PrDetailBody × Nat)) (pr : RawPr)
    (hmem : pr ∈ prs) (hkeep : keepPr userId startDate endDate pr = true)
    (hfail : details pr.number = FetchResult.err) :
    mkRecord repoName details pr ∈
        (extract_data_from_prs prs repoName userId startDate endDate details).1 ∧
      (mkRecord repoName details pr).linesChanged = LinesChanged.NA ∧
      (mkRecord repoName details pr).repository = repoName ∧
      (mkRecord repoName details pr).title = pr.title ∧
      (mkRecord repoName details pr).number = pr.number ∧
      (mkRecord repoName details pr).url = pr.htmlUrl ∧
      (mkRecord repoName details pr).createdAt = pr.createdAt ∧
      (mkRecord repoName details pr).closedAt = pr.closedAt ∧
      (mkRecord repoName details pr).mergeDays =
        calculate_merge_time (some pr.createdAt) pr.closedAt := by
  refine ⟨?_, ?_, rfl, rfl, rfl, rfl, rfl, rfl, rfl⟩
  · exact (mem_extract_iff prs repoName userId startDate endDate details _).2
      ⟨pr, hmem, hkeep, rfl⟩
  · simp [mkRecord, get_pr_details, hfail]

/-- Witness for C8: a concrete PR whose detail oracle fails. -/
theorem c8_detail_failure_record_kept_witness :
    mkRecord "repoA" (fun _ => FetchResult.err)
        (⟨1, 7, "t", "u", ⟨2024, 7, 1, 10, 0, 0⟩, none, none⟩ : RawPr) ∈
      (extract_data_from_prs
        [⟨1, 7, "t", "u", ⟨2024, 7, 1, 10, 0, 0⟩, none, none⟩] "repoA" 1 none none
        (fun _ => FetchResult.err)).1 ∧
    (mkRecord "repoA" (fun _ => FetchResult.err)
        (⟨1, 7, "t", "u", ⟨2024, 7, 1, 10, 0, 0⟩, none, none⟩ : RawPr)).linesChanged =
      LinesChanged.NA ∧
    (mkRecord "repoA" (fun _ => FetchResult.err)
        (⟨1, 7, "t", "u", ⟨2024, 7, 1, 10, 0, 0⟩, none, none⟩ : RawPr)).repository =
      "repoA" ∧
    (mkRecord "repoA" (fun _ => FetchResult.err)
        (⟨1, 7, "t", "u", ⟨2024, 7, 1, 10, 0, 0⟩, none, none⟩ : RawPr)).title = "t" ∧
    (mkRecord "repoA" (fun _ => FetchResult.err)
        (⟨1, 7, "t", "u", ⟨2024, 7, 1, 10, 0, 0⟩, none, none⟩ : RawPr)).number = 7 ∧
    (mkRecord "repoA" (fun _ => FetchResult.err)
        (⟨1, 7, "t", "u", ⟨2024, 7, 1, 10, 0, 0⟩, none, none⟩ : RawPr)).url = "u" ∧
    (mkRecord "repoA" (fun _ => FetchResult.err)
        (⟨1, 7, "t", "u", ⟨2024, 7, 1, 10, 0, 0⟩, none, none⟩ : RawPr)).createdAt =
      ⟨2024, 7, 1, 10, 0, 0⟩ ∧
    (mkRecord "repoA" (fun _ => FetchResult.err)
        (⟨1, 7, "t", "u", ⟨2024, 7, 1, 10, 0, 0⟩, none, none⟩ : RawPr)).closedAt = none ∧
    (mkRecord "repoA" (fun _ => FetchResult.err)
        (⟨1, 7, "t", "u", ⟨2024, 7, 1, 10, 0, 0⟩, none, none⟩ : RawPr)).mergeDays =
      calculate_merge_time (some ⟨2024, 7, 1, 10, 0, 0⟩) none :=
  c8_detail_failure_record_kept
    [⟨1, 7, "t", "u", ⟨2024, 7, 1, 10, 0, 0⟩, none, none⟩] "repoA" 1 none none
    (fun _ => FetchResult.err) _ (by decide) (by decide) rfl

/-- Claim C9 (confirmed): with both timestamps present, `merge_days` is the
floor of the day difference (`86400 * d ≤ Δseconds < 86400 * (d + 1)`); the
spec's example gives 2; with either timestamp absent it is the `'N/A'`
sentinel. -/
theorem c9_merge_days_floor :
    (∀ x : Option DateTime, calculate_merge_time none x = MergeDays.NA) ∧
    (∀ x : Option DateTime, calculate_merge_time x none = MergeDays.NA) ∧
    (∀ (c cl : DateTime) (d : Int),
      calculate_merge_time (some c) (some cl) = MergeDays.days d →
        86400 * d ≤ toSeconds cl - toSeconds c ∧
          toSeconds cl - toSeconds c < 86400 * (d + 1)) ∧
    calculate_merge_time (some ⟨2024, 7, 1, 10, 0, 0⟩) (some ⟨2024, 7, 4, 9, 0, 0⟩)
      = MergeDays.days 2 := by
  refine ⟨fun x => rfl, fun x => by cases x <;> rfl, ?_, by decide⟩
  intro c cl d h
  have hd : d = Int.fdiv (toSeconds cl - toSeconds c) 86400 := by
    simpa [calculate_merge_time] using h.symm
  subst hd
  set n : Int := toSeconds cl - toSeconds c with hn
  have hsplit : n.fmod 86400 + 86400 * n.fdiv 86400 = n := Int.fmod_add_fdiv n 86400
  have hnonneg : 0 ≤ n.fmod 86400 := Int.fmod_nonneg' n (by norm_num)
  have hlt : n.fmod 86400 < 86400 := Int.fmod_lt_of_pos n (by norm_num)
  constructor
  · linarith
  · linarith [Int.mul_add 86400 (n.fdiv 86400) 1]

/-- Witness for C9's floor bounds at the spec's example (2 days, 23 hours). -/
theorem c9_merge_days_floor_witness :
    calculate_merge_time (some ⟨2024, 7, 4, 9, 0, 0⟩) none = MergeDays.NA ∧
    (86400 * 2 ≤ toSeconds ⟨2024, 7, 4, 9, 0, 0⟩ - toSeconds ⟨2024, 7, 1, 10, 0, 0⟩ ∧
      toSeconds ⟨2024, 7, 4, 9, 0, 0⟩ - toSeconds ⟨2024, 7, 1, 10, 0, 0⟩ < 86400 * (2 + 1)) :=
  ⟨c9_merge_days_floor.2.1 (some ⟨2024, 7, 4, 9, 0, 0⟩),
   c9_merge_days_floor.2.2.1 ⟨2024, 7, 1, 10, 0, 0⟩ ⟨2024, 7, 4, 9, 0, 0⟩ 2 (by decide)⟩

/-- Claim C10 (confirmed): a successful detail fetch whose body lacks the
`additions` and/or `deletions` fields defaults each missing field to 0 and
returns their sum — so a field-less success yields `lines_changed = 0`,
never the `'N/A'` sentinel. -/
theorem c10_missing_fields_default_zero :
    (∀ (body : PrDetailBody) (remaining : Nat),
      get_pr_details (FetchResult.ok (body, remaining)) =
        LinesChanged.count (body.additions.getD 0 + body.deletions.getD 0)) ∧
    (∀ (body : PrDetailBody) (remaining : Nat),
      body.additions = none → body.deletions = none →
        get_pr_details (FetchResult.ok (body, remaining)) = LinesChanged.count 0) ∧
    (∀ (body : PrDetailBody) (remaining : Nat),
      get_pr_details (FetchResult.ok (body, remaining)) ≠ LinesChanged.NA) := by
  refine ⟨fun body remaining => rfl, ?_, ?_⟩
  · intro body remaining ha hd
    simp [get_pr_details, ha, hd]
  · intro body remaining
    simp [get_pr_details]

/-- Witness for C10 at the empty detail body. -/
theorem c10_missing_fields_default_zero_witness :
    get_pr_details (FetchResult.ok (⟨none, none⟩, 7)) = LinesChanged.count 0 :=
  c10_missing_fields_default_zero.2.1 ⟨none, none⟩ 7 rfl rfl

/-- `requestedPages` distributes over trace concatenation. -/
theorem requestedPages_append (a b : List Event) :
    requestedPages (a ++ b) = requestedPages a ++ requestedPages b := by
  induction a with
  | nil => rfl
  | cons e a iha =>
    cases e with
    | request k => cases k <;> simp [requestedPages, iha]
    | quotaCheck => simp [requestedPages, iha]
    | pageSleep => simp [requestedPages, iha]
    | throttleSleep => simp [requestedPages, iha]
    | saveFile => simp [requestedPages, iha]

/-- The header-triggered throttle issues no listing request. -/
theorem requestedPages_headerThrottle (r : Nat) :
    requestedPages (headerThrottle r) = [] := by
  by_cases hr : r < 5 <;> simp [headerThrottle, hr, requestedPages]

/-- General pagination lemma: when the oracle serves the non-empty pages `ps`
consecutively from `page` and then either fails or serves an empty page, the
pager returns the accumulator followed by all served items, and the listing
requests it issued are exactly the consecutive pages
`page, page+1, ..., page+ps.length`. -/
theorem get_prs_aux_spec (pages : Nat → FetchResult (List RawPr × Nat)) :
    ∀ (ps : List (List RawPr)) (rems : Nat → Nat) (page : Nat) (acc : List RawPr)
      (fuel : Nat),
      (∀ p ∈ ps, p ≠ []) →
      (∀ i (h : i < ps.length), pages (page + i) = FetchResult.ok (ps[i], rems i)) →
      (pages (page + ps.length) = FetchResult.err ∨
        ∃ r, pages (page + ps.length) = FetchResult.ok ([], r)) →
      ps.length + 1 ≤ fuel →
      (get_prs_aux pages fuel page acc).1 = acc ++ ps.flatten ∧
      requestedPages (get_prs_aux pages fuel page acc).2 =
        List.range' page (ps.length + 1) := by
  intro ps
  induction ps with
  | nil =>
    intro rems page acc fuel hne hpg hstop hfuel
    match fuel, hfuel with
    | f + 1, _ =>
      simp only [List.length_nil, Nat.add_zero] at hstop
      rcases hstop with h | ⟨r, h⟩
      · simp [get_prs_aux, h, requestedPages]
      · simp only [get_prs_aux, h, List.isEmpty_nil, if_pos]
        refine ⟨by simp, ?_⟩
        simp [requestedPages, requestedPages_headerThrottle]
  | cons p ps ih =>
    intro rems page acc fuel hne hpg hstop hfuel
    match fuel, hfuel with
    | f + 1, hfuel =>
      have hp0 : pages page = FetchResult.ok (p, rems 0) := by
        simpa using hpg 0 (by simp)
      have hpne : p.isEmpty = false := by
        simpa [List.isEmpty_iff] using hne p (List.mem_cons_self p ps)
      obtain ⟨ih1, ih2⟩ := ih (fun i => rems (i + 1)) (page + 1) (acc ++ p) f
        (fun q hq => hne q (List.mem_cons_of_mem _ hq))
        (fun i h => by
          have := hpg (i + 1) (by simpa using Nat.succ_lt_succ h)
          simpa [Nat.add_comm, Nat.add_left_comm, Nat.add_assoc] using this)
        (by
          rcases hstop with h | ⟨r, h⟩
          · exact Or.inl (by simpa [Nat.add_comm, Nat.add_left_comm, Nat.add_assoc]
              using h)
          · exact Or.inr ⟨r, by simpa [Nat.add_comm, Nat.add_left_comm, Nat.add_assoc]
              using h⟩)
        (by simpa using Nat.le_of_succ_le_succ hfuel)
      simp only [get_prs_aux, hp0, hpne, Bool.false_eq_true, if_neg, ite_false]
      constructor
      · simp [ih1, List.append_assoc]
      · rw [List.range'_succ]
        simp [requestedPages, requestedPages_append, requestedPages_headerThrottle, ih2]

/-- Claim C6 (confirmed): with two full pages of 100 items and an empty third
page, the pager requests exactly pages 1, 2, 3 in ascending order, appends
the pages' items in order, and stops at the empty page with exactly 200
accumulated raw items. -/
theorem c6_pagination (p1 p2 : List RawPr) (r1 r2 r3 : Nat)
    (h1 : p1.length = 100) (h2 : p2.length = 100) :
    (get_prs_for_repository
        (fun n => if n = 1 then FetchResult.ok (p1, r1)
          else if n = 2 then FetchResult.ok (p2, r2)
          else FetchResult.ok ([], r3)) 10).1 = p1 ++ p2 ∧
    (get_prs_for_repository
        (fun n => if n = 1 then FetchResult.ok (p1, r1)
          else if n = 2 then FetchResult.ok (p2, r2)
          else FetchResult.ok ([], r3)) 10).1.length = 200 ∧
    requestedPages (get_prs_for_repository
        (fun n => if n = 1 then FetchResult.ok (p1, r1)
          else if n = 2 then FetchResult.ok (p2, r2)
          else FetchResult.ok ([], r3)) 10).2 = [1, 2, 3] := by
  have hne : ∀ p ∈ [p1, p2], p ≠ [] := by
    intro p hp hnil
    subst hnil
    simp only [List.mem_cons, List.mem_singleton, List.not_mem_nil, or_false] at hp
    rcases hp with hp | hp
    · rw [← hp] at h1
      simp at h1
    · rw [← hp] at h2
      simp at h2
  have hs := get_prs_aux_spec
    (fun n => if n = 1 then FetchResult.ok (p1, r1)
      else if n = 2 then FetchResult.ok (p2, r2)
      else FetchResult.ok ([], r3))
    [p1, p2] (fun i => if i = 0 then r1 else r2) 1 [] 10 hne
    (by
      intro i h
      simp only [List.length_cons, List.length_nil] at h
      interval_cases i
      · norm_num
      · norm_num)
    (Or.inr ⟨r3, by norm_num⟩)
    (by norm_num)
  obtain ⟨ha, hb⟩ := hs
  refine ⟨?_, ?_, ?_⟩
  · simpa [get_prs_for_repository] using ha
  · rw [show (10 : Nat) = 10 from rfl] at ha
    simp only [get_prs_for_repository]
    rw [ha]
    simp [h1, h2]
  · simpa [get_prs_for_repository, List.range'] using hb

/-- Witness for C6 with two replicated 100-item pages. -/
theorem c6_pagination_witness :
    (get_prs_for_repository
        (fun n => if n = 1 then
            FetchResult.ok (List.replicate 100 ⟨1, 7, "t", "u", ⟨2024, 7, 1, 10, 0, 0⟩, none, none⟩, 9)
          else if n = 2 then
            FetchResult.ok (List.replicate 100 ⟨1, 7, "t", "u", ⟨2024, 7, 1, 10, 0, 0⟩, none, none⟩, 9)
          else FetchResult.ok ([], 9)) 10).1.length = 200 :=
  (c6_pagination (List.replicate 100 ⟨1, 7, "t", "u", ⟨2024, 7, 1, 10, 0, 0⟩, none, none⟩)
    (List.replicate 100 ⟨1, 7, "t", "u", ⟨2024, 7, 1, 10, 0, 0⟩, none, none⟩) 9 9 9
    (by simp) (by simp)).2.1

/-- Claim C7 (confirmed): when the fetch of page 3 fails after two non-empty
pages, the pager stops at once and returns the two accumulated pages as a
normal (non-error) list; pages 1, 2, 3 and nothing further were requested. -/
theorem c7_partial_result (p1 p2 : List RawPr) (r1 r2 : Nat)
    (h1 : p1 ≠ []) (h2 : p2 ≠ []) :
    (get_prs_for_repository
        (fun n => if n = 1 then FetchResult.ok (p1, r1)
          else if n = 2 then FetchResult.ok (p2, r2)
          else FetchResult.err) 10).1 = p1 ++ p2 ∧
    requestedPages (get_prs_for_repository
        (fun n => if n = 1 then FetchResult.ok (p1, r1)
          else if n = 2 then FetchResult.ok (p2, r2)
          else FetchResult.err) 10).2 = [1, 2, 3] := by
  have hne : ∀ p ∈ [p1, p2], p ≠ [] := by
    intro p hp
    simp only [List.mem_cons, List.mem_singleton, List.not_mem_nil, or_false] at hp
    rcases hp with hp | hp
    · subst hp
      exact h1
    · subst hp
      exact h2
  have hs := get_prs_aux_spec
    (fun n => if n = 1 then FetchResult.ok (p1, r1)
      else if n = 2 then FetchResult.ok (p2, r2)
      else FetchResult.err)
    [p1, p2] (fun i => if i = 0 then r1 else r2) 1 [] 10 hne
    (by
      intro i h
      simp only [List.length_cons, List.length_nil] at h
      interval_cases i
      · norm_num
      · norm_num)
    (Or.inl (by norm_num))
    (by norm_num)
  obtain ⟨ha, hb⟩ := hs
  exact ⟨by simpa [get_prs_for_repository] using ha,
    by simpa [get_prs_for_repository, List.range'] using hb⟩

/-- Witness for C7 with two singleton pages and a failing third page. -/
theorem c7_partial_result_witness :
    (get_prs_for_repository
        (fun n => if n = 1 then
            FetchResult.ok ([⟨1, 7, "t", "u", ⟨2024, 7, 1, 10, 0, 0⟩, none, none⟩], 9)
          else if n = 2 then
            FetchResult.ok ([⟨2, 8, "s", "v", ⟨2024, 7, 2, 10, 0, 0⟩, none, none⟩], 9)
          else FetchResult.err) 10).1 =
      [⟨1, 7, "t", "u", ⟨2024, 7, 1, 10, 0, 0⟩, none, none⟩,
       ⟨2, 8, "s", "v", ⟨2024, 7, 2, 10, 0, 0⟩, none, none⟩] ∧
    requestedPages (get_prs_for_repository
        (fun n => if n = 1 then
            FetchResult.ok ([⟨1, 7, "t", "u", ⟨2024, 7, 1, 10, 0, 0⟩, none, none⟩], 9)
          else if n = 2 then
            FetchResult.ok ([⟨2, 8, "s", "v", ⟨2024, 7, 2, 10, 0, 0⟩, none, none⟩], 9)
          else FetchResult.err) 10).2 = [1, 2, 3] :=
  c7_partial_result [⟨1, 7, "t", "u", ⟨2024, 7, 1, 10, 0, 0⟩, none, none⟩]
    [⟨2, 8, "s", "v", ⟨2024, 7, 2, 10, 0, 0⟩, none, none⟩] 9 9
    (by simp) (by simp)
